import Mathlib

/-!
Shallow embedding of the multi-stock ATR + Bollinger Bands trading bot
(`demo/multistock/multistock.go`).  Go `float64` values are modelled as
exact rationals (`ℚ`); `math.Sqrt` is abstracted as an explicit function
parameter `sqrt : ℚ → ℚ` (the only transcendental operation in the code).
Go `int(x)` conversion of a `float64` truncates toward zero, modelled by
`truncInt`.  Wall-clock times are modelled as `ℕ` ticks.
-/

/-- Mirrors Go struct `PriceData` (price, high, low, close). -/
structure PriceData where
  price : ℚ
  high : ℚ
  low : ℚ
  close : ℚ
deriving DecidableEq

/-- Mirrors Go struct `TradingIndicators`. -/
structure TradingIndicators where
  atr : ℚ
  upperBand : ℚ
  middleBand : ℚ
  lowerBand : ℚ
  stdDev : ℚ
deriving DecidableEq

/-- Mirrors the `trading212.Position` fields the bot reads. -/
structure Position where
  ticker : String
  quantity : ℚ
  value : ℚ
deriving DecidableEq

/-- Mirrors Go struct `StockData`; `LastUpdate` is modelled as a `ℕ` tick. -/
structure StockData where
  ticker : String
  priceHistory : List PriceData
  indicators : TradingIndicators
  currentPrice : ℚ
  lastUpdate : ℕ
deriving DecidableEq

/-- Go `int(x)` conversion of a `float64`: truncation toward zero. -/
def truncInt (q : ℚ) : ℤ :=
  if 0 ≤ q then ⌊q⌋ else ⌈q⌉

/-- True range of sample `cur` against its predecessor `prev`
(`calculateATR` loop body: `max(tr1, max(tr2, tr3))`). -/
def trueRange (cur prev : PriceData) : ℚ :=
  max (cur.high - cur.low) (max |cur.high - prev.close| |cur.low - prev.close|)

/-- The `trueRanges` slice built by `calculateATR`: one true range per
consecutive pair of samples (`for i := 1; i < len; i++`). -/
def trueRanges (hist : List PriceData) : List ℚ :=
  List.zipWith (fun prev cur => trueRange cur prev) hist hist.tail

/-- `calculateATR`: returns 0 when fewer than `atrPeriod+1` samples exist,
otherwise the mean of the last `atrPeriod` true ranges. -/
def calculateATR (atrPeriod : ℕ) (hist : List PriceData) : ℚ :=
  if hist.length < atrPeriod + 1 then 0
  else
    let trs := trueRanges hist
    if trs.length < atrPeriod then 0
    else ((trs.drop (trs.length - atrPeriod)).sum) / (atrPeriod : ℚ)

/-- `calculateBollingerBands`: returns `(upperBand, sma, lowerBand, stdDev)`;
all-zero when fewer than `bollingerPeriod` samples exist.  `sqrt` stands for
`math.Sqrt`. -/
def calculateBollingerBands (sqrt : ℚ → ℚ) (bollingerPeriod : ℕ)
    (hist : List PriceData) : ℚ × ℚ × ℚ × ℚ :=
  if hist.length < bollingerPeriod then (0, 0, 0, 0)
  else
    let window := hist.drop (hist.length - bollingerPeriod)
    let sma := (window.map (fun s => s.close)).sum / (bollingerPeriod : ℚ)
    let variance :=
      (window.map (fun s => (s.close - sma) * (s.close - sma))).sum /
        (bollingerPeriod : ℚ)
    let stdDev := sqrt variance
    (sma + 2 * stdDev, sma, sma - 2 * stdDev, stdDev)

/-- `calculateIndicators`: zero sentinel below `max(atrPeriod, bollingerPeriod)`
samples, otherwise ATR plus Bollinger bands. -/
def calculateIndicators (sqrt : ℚ → ℚ) (atrPeriod bollingerPeriod : ℕ)
    (hist : List PriceData) : TradingIndicators :=
  if hist.length < max atrPeriod bollingerPeriod then
    ⟨0, 0, 0, 0, 0⟩
  else
    let atr := calculateATR atrPeriod hist
    let b := calculateBollingerBands sqrt bollingerPeriod hist
    ⟨atr, b.1, b.2.1, b.2.2.1, b.2.2.2⟩

/-- The OHLC approximation built in `updateAllPrices`:
`High = price*1.005`, `Low = price*0.995`, `Close = price`. -/
def mkSample (p : ℚ) : PriceData :=
  ⟨p, p * 1.005, p * 0.995, p⟩

/-- The history-append step of `updateAllPrices`: append the new sample, then
keep only the last `maxHistory` entries. -/
def pushSample (maxHistory : ℕ) (hist : List PriceData) (s : PriceData) :
    List PriceData :=
  let h := hist ++ [s]
  if h.length > maxHistory then h.drop (h.length - maxHistory) else h

/-- Per-ticker body of `updateAllPrices`: a zero fetched price leaves the
stock untouched (the `continue` branch); otherwise the current price, update
time and rolling history are refreshed. -/
def updateStock (maxHistory now : ℕ) (p : ℚ) (sd : StockData) : StockData :=
  if p = 0 then sd
  else
    { sd with
      currentPrice := p
      lastUpdate := now
      priceHistory := pushSample maxHistory sd.priceHistory (mkSample p) }

/-- `updateAllPrices` over the tracked stocks, with the price fetch abstracted
as `priceOf`. -/
def updateAllPrices (maxHistory now : ℕ) (priceOf : String → ℚ)
    (stocks : List StockData) : List StockData :=
  stocks.map (fun sd => updateStock maxHistory now (priceOf sd.ticker) sd)

/-- Position sizing in `executeTrading`:
`int((portfolioValue*riskPercent/100)/currentPrice)`, clamped up to 1. -/
def positionSize (portfolioValue riskPercent currentPrice : ℚ) : ℤ :=
  let raw := truncInt (portfolioValue * riskPercent / 100 / currentPrice)
  if raw < 1 then 1 else raw

/-- `evaluateEntry`: submits a buy of `posSize` shares iff all four entry
conditions hold. -/
def evaluateEntry (currentPrice : ℚ) (indicators : TradingIndicators)
    (posSize : ℤ) : Option ℤ :=
  let touchesLowerBand := currentPrice ≤ indicators.lowerBand
  let lowVolatility := indicators.atr < currentPrice * 0.025
  let belowMiddleBand := currentPrice < indicators.middleBand
  let bollingerWidth :=
    (indicators.upperBand - indicators.lowerBand) / indicators.middleBand
  let normalVolatility := bollingerWidth > 0.02 ∧ bollingerWidth < 0.15
  if touchesLowerBand ∧ lowVolatility ∧ belowMiddleBand ∧ normalVolatility then
    some posSize
  else
    none

/-- `evaluateExit`: checks the five exit conditions in source order, each true
condition overwriting `(shouldSell, sellReason)`; on a sell, the submitted
quantity is `-int(position.Quantity)`. -/
def evaluateExit (currentPrice : ℚ) (indicators : TradingIndicators)
    (position : Position) : Option (String × ℤ) :=
  let entryPrice := position.value / position.quantity
  let stopLoss := entryPrice - indicators.atr * 1.5
  let profitPercent := (currentPrice - entryPrice) / entryPrice * 100
  let r0 : Bool × String := (false, "")
  let r1 := if currentPrice ≥ indicators.upperBand then
    (true, "Take Profit (Upper Band)") else r0
  let r2 := if currentPrice ≤ stopLoss then (true, "Stop Loss (ATR)") else r1
  let r3 := if profitPercent ≥ 5 ∧ currentPrice < indicators.middleBand then
    (true, "Profit Protection") else r2
  let r4 := if indicators.atr > entryPrice * 0.04 ∧ profitPercent > 0 then
    (true, "High Volatility Exit") else r3
  let r5 := if profitPercent < 0 ∧ indicators.atr < entryPrice * 0.01 then
    (true, "Low Volatility Cut") else r4
  if r5.1 then some (r5.2, -(truncInt position.quantity)) else none

/-- The order a cycle submits for one instrument. -/
inductive TradeAction where
  | buy (quantity : ℤ)
  | sell (reason : String) (quantity : ℤ)
deriving DecidableEq

/-- The position lookup loop of `executeTrading`: first position whose ticker
matches. -/
def findPosition (ticker : String) (positions : List Position) :
    Option Position :=
  positions.find? (fun pos => pos.ticker == ticker)

/-- `executeTrading` for one instrument: skip when history is not warmed up or
the current price is zero; otherwise evaluate entry (flat) or exit (long). -/
def executeTrading (atrPeriod bollingerPeriod : ℕ) (riskPercent : ℚ)
    (sd : StockData) (positions : List Position) (portfolioValue : ℚ) :
    Option TradeAction :=
  let hasData := sd.priceHistory.length ≥ max atrPeriod bollingerPeriod
  if ¬hasData ∨ sd.currentPrice = 0 then none
  else
    let posSize := positionSize portfolioValue riskPercent sd.currentPrice
    match findPosition sd.ticker positions with
    | none => (evaluateEntry sd.currentPrice sd.indicators posSize).map .buy
    | some pos =>
        (evaluateExit sd.currentPrice sd.indicators pos).map
          (fun rq => .sell rq.1 rq.2)

/-- The last `n` elements of a list (all of it when shorter than `n`). -/
def lastN (n : ℕ) (l : List PriceData) : List PriceData :=
  l.drop (l.length - n)

/-- Modelled from the spec: ATR as "the arithmetic mean of the most recent
`atrPeriod` True Range values", the true ranges being those of the last
`atrPeriod + 1` samples. -/
def specATR (atrPeriod : ℕ) (hist : List PriceData) : ℚ :=
  (trueRanges (lastN (atrPeriod + 1) hist)).sum / (atrPeriod : ℚ)

/-- Modelled from the spec: Bollinger middle band as the arithmetic mean of
the closes of the most recent `bollingerPeriod` samples. -/
def specMiddleBand (bollingerPeriod : ℕ) (hist : List PriceData) : ℚ :=
  ((lastN bollingerPeriod hist).map (fun s => s.close)).sum /
    (bollingerPeriod : ℚ)

/-- Modelled from the spec: population variance of the same closes around the
middle band (divide by `bollingerPeriod`, not `bollingerPeriod - 1`). -/
def specVariance (bollingerPeriod : ℕ) (hist : List PriceData) : ℚ :=
  ((lastN bollingerPeriod hist).map
      (fun s => (s.close - specMiddleBand bollingerPeriod hist) ^ 2)).sum /
    (bollingerPeriod : ℚ)

/-- Modelled from the spec: `(upper, middle, lower, stdDev)` with
`stdDev = sqrt variance` and `upper/lower = middle ± 2*stdDev`. -/
def specBands (sqrt : ℚ → ℚ) (bollingerPeriod : ℕ) (hist : List PriceData) :
    ℚ × ℚ × ℚ × ℚ :=
  let m := specMiddleBand bollingerPeriod hist
  let s := sqrt (specVariance bollingerPeriod hist)
  (m + 2 * s, m, m - 2 * s, s)

/-- Last `maxHistory` elements, as the rolling-window result of repeated
pushes is described. -/
def rtake (maxHistory : ℕ) (l : List PriceData) : List PriceData :=
  l.drop (l.length - maxHistory)

/-- The exit decision as amended: any true condition sells, and the reported
reason is the LAST true condition in the listed order (so the conditions are
tried here from the fifth down to the first). -/
def exitDecisionSpec (currentPrice : ℚ) (indicators : TradingIndicators)
    (position : Position) : Option (String × ℤ) :=
  let entryPrice := position.value / position.quantity
  let profitPercent := (currentPrice - entryPrice) / entryPrice * 100
  let q := -(truncInt position.quantity)
  if profitPercent < 0 ∧ indicators.atr < entryPrice * 0.01 then
    some ("Low Volatility Cut", q)
  else if indicators.atr > entryPrice * 0.04 ∧ profitPercent > 0 then
    some ("High Volatility Exit", q)
  else if profitPercent ≥ 5 ∧ currentPrice < indicators.middleBand then
    some ("Profit Protection", q)
  else if currentPrice ≤ entryPrice - indicators.atr * 1.5 then
    some ("Stop Loss (ATR)", q)
  else if currentPrice ≥ indicators.upperBand then
    some ("Take Profit (Upper Band)", q)
  else
    none

/-! Helper lemmas about the rolling history and the true-range list. -/

/-- A push is exactly "append, then keep the last `maxHistory` elements". -/
theorem pushSample_eq_rtake (w : ℕ) (l : List PriceData) (s : PriceData) :
    pushSample w l s = rtake w (l ++ [s]) := by
  simp only [pushSample, rtake]
  split_ifs with h
  · rfl
  · have h0 : l.length + 1 - w = 0 := by
      simp only [List.length_append, List.length_singleton] at h
      omega
    simp [h0]

/-- A push never leaves more than `maxHistory` elements behind. -/
theorem pushSample_length_le (w : ℕ) (l : List PriceData) (s : PriceData) :
    (pushSample w l s).length ≤ w := by
  simp only [pushSample]
  split_ifs with h
  · simp only [List.length_drop]
    omega
  · simp only [List.length_append, List.length_singleton] at h ⊢
    omega

/-- Keeping the last `w` elements twice around an append collapses. -/
theorem rtake_rtake_append (w : ℕ) (a b : List PriceData) :
    rtake w (rtake w a ++ b) = rtake w (a ++ b) := by
  simp only [rtake, List.length_append, List.length_drop]
  rw [List.drop_append_eq_append_drop, List.drop_append_eq_append_drop,
    List.drop_drop]
  simp only [List.length_drop]
  congr 1
  · congr 1
    omega
  · congr 1
    omega

/-- Folding pushes over a sample list keeps exactly the last `w` of the
initial contents followed by the pushed samples. -/
theorem foldl_pushSample (w : ℕ) (samples : List PriceData) :
    ∀ init : List PriceData, init.length ≤ w →
      samples.foldl (pushSample w) init = rtake w (init ++ samples) := by
  induction samples with
  | nil =>
      intro init h
      have h0 : init.length - w = 0 := by omega
      simp [rtake, h0]
  | cons s rest ih =>
      intro init h
      rw [List.foldl_cons, ih _ (pushSample_length_le w init s),
        pushSample_eq_rtake, rtake_rtake_append]
      simp

/-- The true-range list has one entry per consecutive pair of samples. -/
theorem trueRanges_length (hist : List PriceData) :
    (trueRanges hist).length = hist.length - 1 := by
  simp only [trueRanges, List.length_zipWith, List.length_tail]
  omega

/-- Dropping samples before building true ranges is dropping true ranges. -/
theorem trueRanges_drop (k : ℕ) (hist : List PriceData) :
    trueRanges (hist.drop k) = (trueRanges hist).drop k := by
  induction k generalizing hist with
  | zero => simp
  | succ n ih =>
      cases hist with
      | nil => simp [trueRanges]
      | cons a t =>
          cases t with
          | nil => simp [trueRanges]
          | cons b t' =>
              rw [List.drop_succ_cons, ih]
              have hstep : trueRanges (a :: b :: t') =
                  trueRange b a :: trueRanges (b :: t') := by
                simp [trueRanges]
              rw [hstep, List.drop_succ_cons]

/-! Claim theorems. -/

/-- Claim C1, counterexample to the claim as stated: at
`entryPrice = 95, currentPrice = 106, upperBand = 105, atr = 4,
middleBand = 100`, the take-profit condition `currentPrice ≥ upperBand` (the
FIRST true condition in the listed order) holds, yet `evaluateExit` reports
"High Volatility Exit" — the last true condition in source order — because
each check overwrites the reason of the previous one. -/
theorem evaluateExit_first_reason_counterexample :
    (106 : ℚ) ≥ (⟨4, 105, 100, 95, 0⟩ : TradingIndicators).upperBand ∧
    evaluateExit 106 ⟨4, 105, 100, 95, 0⟩ ⟨"NVDA", 1, 95⟩ =
      some ("High Volatility Exit", -1) ∧
    "High Volatility Exit" ≠ "Take Profit (Upper Band)" := by
  refine ⟨by norm_num, ?_, by decide⟩
  norm_num [evaluateExit, truncInt]

/-- Claim C1, amended: for an instrument in the Long state a sell order is
submitted iff at least one of the five exit conditions holds, and the
reported reason is that of the LAST true condition in the listed order:
`evaluateExit` agrees everywhere with `exitDecisionSpec`, which tries the
conditions from the fifth down to the first and reports the first true one
it meets. -/
theorem evaluateExit_eq_exitDecisionSpec (currentPrice : ℚ)
    (indicators : TradingIndicators) (position : Position) :
    evaluateExit currentPrice indicators position =
      exitDecisionSpec currentPrice indicators position := by
  simp only [evaluateExit, exitDecisionSpec]
  split_ifs <;> simp_all

/-- Claim C2: with warmed-up history, a positive current price and no open
position, a buy of `positionSize` shares is submitted iff all four entry
conditions hold (touch of the lower band, ATR below 2.5% of price, price
below the middle band, band width ratio strictly between 0.02 and 0.15),
and no order is submitted when any of them fails. -/
theorem executeTrading_buy_iff_entry_conditions (atrPeriod bollingerPeriod : ℕ)
    (riskPercent portfolioValue : ℚ) (sd : StockData)
    (positions : List Position)
    (hdata : max atrPeriod bollingerPeriod ≤ sd.priceHistory.length)
    (hpos : 0 < sd.currentPrice)
    (hflat : findPosition sd.ticker positions = none) :
    (executeTrading atrPeriod bollingerPeriod riskPercent sd positions
        portfolioValue =
        some (.buy (positionSize portfolioValue riskPercent sd.currentPrice)) ↔
      (sd.currentPrice ≤ sd.indicators.lowerBand ∧
       sd.indicators.atr < sd.currentPrice * 0.025 ∧
       sd.currentPrice < sd.indicators.middleBand ∧
       0.02 < (sd.indicators.upperBand - sd.indicators.lowerBand) /
          sd.indicators.middleBand ∧
       (sd.indicators.upperBand - sd.indicators.lowerBand) /
          sd.indicators.middleBand < 0.15)) ∧
    (¬ (sd.currentPrice ≤ sd.indicators.lowerBand ∧
       sd.indicators.atr < sd.currentPrice * 0.025 ∧
       sd.currentPrice < sd.indicators.middleBand ∧
       0.02 < (sd.indicators.upperBand - sd.indicators.lowerBand) /
          sd.indicators.middleBand ∧
       (sd.indicators.upperBand - sd.indicators.lowerBand) /
          sd.indicators.middleBand < 0.15) →
      executeTrading atrPeriod bollingerPeriod riskPercent sd positions
        portfolioValue = none) := by
  have hne : sd.currentPrice ≠ 0 := ne_of_gt hpos
  simp only [executeTrading, hflat, ge_iff_le, evaluateEntry, gt_iff_lt]
  rw [if_neg (by push_neg; exact ⟨hdata, hne⟩)]
  split_ifs with h
  · exact ⟨by simp [h], fun hn => absurd h hn⟩
  · exact ⟨by simp [h], fun _ => by simp⟩

/-- Claim C2 witness: the spec's entry scenario (`currentPrice = 95,
lowerBand = 95, middleBand = 100, upperBand = 105, atr = 2`) produces a buy. -/
theorem executeTrading_buy_iff_entry_conditions_witness :
    executeTrading 1 1 0.4 ⟨"NVDA", [mkSample 95], ⟨2, 105, 100, 95, 0⟩, 95, 0⟩
        [] 10000 =
      some (.buy (positionSize 10000 0.4 95)) :=
  (executeTrading_buy_iff_entry_conditions 1 1 0.4 10000
    ⟨"NVDA", [mkSample 95], ⟨2, 105, 100, 95, 0⟩, 95, 0⟩ []
    (by norm_num) (by norm_num) rfl).1.2 (by norm_num)

/-- Claim C3: for every series shorter than
`max atrPeriod bollingerPeriod`, `calculateIndicators` returns the all-zero
sentinel. -/
theorem calculateIndicators_sentinel_of_short (sqrt : ℚ → ℚ)
    (atrPeriod bollingerPeriod : ℕ) (hist : List PriceData)
    (h : hist.length < max atrPeriod bollingerPeriod) :
    calculateIndicators sqrt atrPeriod bollingerPeriod hist =
      ⟨0, 0, 0, 0, 0⟩ := by
  simp [calculateIndicators, h]

/-- Claim C3 witness: the empty series is below the warm-up threshold and
yields the sentinel. -/
theorem calculateIndicators_sentinel_of_short_witness :
    ([] : List PriceData).length < max 1 2 ∧
    calculateIndicators id 1 2 [] = ⟨0, 0, 0, 0, 0⟩ :=
  ⟨by norm_num, calculateIndicators_sentinel_of_short id 1 2 [] (by norm_num)⟩

/-- Claim C4: pushing any sequence of samples into the rolling history of
capacity `W = max atrPeriod bollingerPeriod` never leaves more than `W`
samples after any push, and after more than `W` pushes the history is
exactly the last `W` pushed samples in push order. -/
theorem rollingSeries_capacity_fifo (atrPeriod bollingerPeriod : ℕ)
    (samples : List PriceData) :
    (∀ i : ℕ,
      ((samples.take i).foldl (pushSample (max atrPeriod bollingerPeriod))
          []).length ≤ max atrPeriod bollingerPeriod) ∧
    (samples.length > max atrPeriod bollingerPeriod →
      samples.foldl (pushSample (max atrPeriod bollingerPeriod)) [] =
        samples.drop (samples.length - max atrPeriod bollingerPeriod)) := by
  constructor
  · intro i
    rw [foldl_pushSample _ _ _ (by simp), List.nil_append]
    simp only [rtake, List.length_drop]
    omega
  · intro _
    rw [foldl_pushSample _ _ _ (by simp), List.nil_append]
    rfl

/-- Claim C4 witness: three pushes into a window of capacity 2 keep the last
two samples. -/
theorem rollingSeries_capacity_fifo_witness :
    ([⟨1,1,1,1⟩, ⟨2,2,2,2⟩, ⟨3,3,3,3⟩] : List PriceData).length > max 1 2 ∧
    ([⟨1,1,1,1⟩, ⟨2,2,2,2⟩, ⟨3,3,3,3⟩] : List PriceData).foldl
        (pushSample (max 1 2)) [] =
      ([⟨1,1,1,1⟩, ⟨2,2,2,2⟩, ⟨3,3,3,3⟩] : List PriceData).drop
        (([⟨1,1,1,1⟩, ⟨2,2,2,2⟩, ⟨3,3,3,3⟩] : List PriceData).length - max 1 2) :=
  ⟨by norm_num,
   (rollingSeries_capacity_fifo 1 2 [⟨1,1,1,1⟩, ⟨2,2,2,2⟩, ⟨3,3,3,3⟩]).2
     (by norm_num)⟩

/-- Claim C5: for every series of length at least `atrPeriod + 1`, the
computed ATR is the arithmetic mean of the most recent `atrPeriod` true
ranges (`specATR`); and on the spec's four-sample example with
`atrPeriod = 3` it equals the mean of the three true ranges of samples 2-4
against their predecessors. -/
theorem calculateATR_eq_specATR (atrPeriod : ℕ) (hist : List PriceData) :
    (atrPeriod + 1 ≤ hist.length →
      calculateATR atrPeriod hist = specATR atrPeriod hist) ∧
    calculateATR 3
        [⟨100,102,98,100⟩, ⟨103,104,99,103⟩, ⟨102,105,101,102⟩,
          ⟨101,103,99,101⟩] =
      (trueRange ⟨103,104,99,103⟩ ⟨100,102,98,100⟩ +
        trueRange ⟨102,105,101,102⟩ ⟨103,104,99,103⟩ +
        trueRange ⟨101,103,99,101⟩ ⟨102,105,101,102⟩) / 3 := by
  constructor
  · intro h
    have hlen := trueRanges_length hist
    have h1 : ¬ hist.length < atrPeriod + 1 := by omega
    have h2 : ¬ (trueRanges hist).length < atrPeriod := by omega
    simp only [calculateATR, if_neg h1, if_neg h2, specATR, lastN]
    rw [trueRanges_drop]
    have h3 : (trueRanges hist).length - atrPeriod =
        hist.length - (atrPeriod + 1) := by omega
    rw [h3]
  · norm_num [calculateATR, trueRanges, trueRange]

/-- Claim C5 witness: a two-sample series with `atrPeriod = 1` satisfies the
length hypothesis and the code ATR equals the spec ATR there. -/
theorem calculateATR_eq_specATR_witness :
    1 + 1 ≤ ([⟨1,2,0,1⟩, ⟨2,3,1,2⟩] : List PriceData).length ∧
    calculateATR 1 [⟨1,2,0,1⟩, ⟨2,3,1,2⟩] =
      specATR 1 [⟨1,2,0,1⟩, ⟨2,3,1,2⟩] :=
  ⟨by norm_num,
   (calculateATR_eq_specATR 1 [⟨1,2,0,1⟩, ⟨2,3,1,2⟩]).1 (by norm_num)⟩

/-- Claim C6: the buy quantity is
`max 1 ⌊(portfolioValue * riskPercent / 100) / currentPrice⌋` for all
inputs (Go's truncation toward zero agrees with the floor under the clamp),
and the spec's sizing example `10000, 0.4, 100` clamps the raw 0 up to 1. -/
theorem positionSize_eq_spec (portfolioValue riskPercent currentPrice : ℚ) :
    positionSize portfolioValue riskPercent currentPrice =
      max 1 ⌊portfolioValue * riskPercent / 100 / currentPrice⌋ ∧
    positionSize 10000 0.4 100 = 1 ∧
    ⌊(10000 : ℚ) * 0.4 / 100 / 100⌋ = 0 := by
  refine ⟨?_, by norm_num [positionSize, truncInt], by norm_num⟩
  simp only [positionSize, truncInt]
  by_cases h : 0 ≤ portfolioValue * riskPercent / 100 / currentPrice
  · rw [if_pos h, max_def]
    split_ifs <;> omega
  · have hq : portfolioValue * riskPercent / 100 / currentPrice < 0 :=
      not_le.1 h
    have h1 : ⌈portfolioValue * riskPercent / 100 / currentPrice⌉ ≤ 0 :=
      Int.ceil_le.2 (by exact_mod_cast hq.le)
    have h2 : ⌊portfolioValue * riskPercent / 100 / currentPrice⌋ ≤ 0 :=
      Int.floor_nonpos hq.le
    rw [if_neg h, if_pos (by omega), max_eq_left (by omega)]

/-- Claim C7: whenever the window is full, the computed Bollinger values
agree with the spec's (`middle` the mean of the window's closes, `stdDev`
the square root of the population variance, bands at `middle ± 2*stdDev`);
and when every close in the window equals `c`, the result collapses to
`(c, c, c, 0)`. -/
theorem calculateBollingerBands_eq_specBands (sqrt : ℚ → ℚ)
    (bollingerPeriod : ℕ) (hist : List PriceData) (c : ℚ)
    (hsqrt : sqrt 0 = 0) (hbp : 1 ≤ bollingerPeriod)
    (hlen : bollingerPeriod ≤ hist.length) :
    calculateBollingerBands sqrt bollingerPeriod hist =
      specBands sqrt bollingerPeriod hist ∧
    ((∀ s ∈ lastN bollingerPeriod hist, s.close = c) →
      calculateBollingerBands sqrt bollingerPeriod hist = (c, c, c, 0)) := by
  have hnotlt : ¬ hist.length < bollingerPeriod := by omega
  have heq : calculateBollingerBands sqrt bollingerPeriod hist =
      specBands sqrt bollingerPeriod hist := by
    simp only [calculateBollingerBands, specBands, specVariance, specMiddleBand,
      lastN, if_neg hnotlt, pow_two]
  refine ⟨heq, fun hc => ?_⟩
  rw [heq]
  have hbpQ : (bollingerPeriod : ℚ) ≠ 0 := Nat.cast_ne_zero.2 (by omega)
  have hwl : (lastN bollingerPeriod hist).length = bollingerPeriod := by
    simp only [lastN, List.length_drop]
    omega
  have hmap : (lastN bollingerPeriod hist).map (fun s => s.close) =
      List.replicate bollingerPeriod c := by
    rw [List.eq_replicate_iff]
    refine ⟨by simp [hwl], fun b hb => ?_⟩
    obtain ⟨s, hs, rfl⟩ := List.mem_map.1 hb
    exact hc s hs
  have hmid : specMiddleBand bollingerPeriod hist = c := by
    unfold specMiddleBand
    rw [hmap, List.sum_replicate, nsmul_eq_mul, mul_div_cancel_left₀ _ hbpQ]
  have hvar : specVariance bollingerPeriod hist = 0 := by
    unfold specVariance
    have hz : ((lastN bollingerPeriod hist).map
        (fun s => (s.close - specMiddleBand bollingerPeriod hist) ^ 2)).sum
          = 0 := by
      apply List.sum_eq_zero
      intro x hx
      obtain ⟨s, hs, rfl⟩ := List.mem_map.1 hx
      rw [hc s hs, hmid]
      ring
    rw [hz, zero_div]
  simp only [specBands]
  rw [hvar, hsqrt, hmid]
  norm_num

/-- Claim C7 witness: a one-sample window with constant close 7 matches the
spec bands and collapses to `(7, 7, 7, 0)`. -/
theorem calculateBollingerBands_eq_specBands_witness :
    calculateBollingerBands id 1 [⟨7,7,7,7⟩] = specBands id 1 [⟨7,7,7,7⟩] ∧
    calculateBollingerBands id 1 [⟨7,7,7,7⟩] = (7, 7, 7, 0) :=
  ⟨(calculateBollingerBands_eq_specBands id 1 [⟨7,7,7,7⟩] 7 rfl
      (by norm_num) (by norm_num)).1,
   (calculateBollingerBands_eq_specBands id 1 [⟨7,7,7,7⟩] 7 rfl
      (by norm_num) (by norm_num)).2 (by simp [lastN])⟩

/-- Claim C8, counterexample to the claim as stated: with `atrPeriod = 3`,
`bollingerPeriod = 2` and a three-sample series, the outer warm-up check
passes and fewer than `atrPeriod + 1` samples exist (so the ATR is 0), yet
`bollingerPeriod > atrPeriod` is false — the situation arises exactly when
the claim says it cannot. -/
theorem calculateATR_gap_counterexample :
    max 3 2 ≤
      ([⟨100,102,98,100⟩, ⟨101,103,99,101⟩, ⟨102,104,100,102⟩] :
        List PriceData).length ∧
    ([⟨100,102,98,100⟩, ⟨101,103,99,101⟩, ⟨102,104,100,102⟩] :
        List PriceData).length < 3 + 1 ∧
    ¬ ((2 : ℕ) > 3) ∧
    (calculateIndicators id 3 2
      [⟨100,102,98,100⟩, ⟨101,103,99,101⟩, ⟨102,104,100,102⟩]).atr = 0 := by
  refine ⟨by norm_num, by norm_num, by norm_num, ?_⟩
  norm_num [calculateIndicators, calculateATR]

/-- Claim C8, amended: whenever the outer warm-up check passes but the series
holds fewer than `atrPeriod + 1` samples, the computed ATR is 0; and the
situation is possible only when `bollingerPeriod ≤ atrPeriod` and the
series length equals `atrPeriod` exactly. -/
theorem calculateIndicators_gap_atr_zero (sqrt : ℚ → ℚ)
    (atrPeriod bollingerPeriod : ℕ) (hist : List PriceData)
    (h1 : max atrPeriod bollingerPeriod ≤ hist.length)
    (h2 : hist.length < atrPeriod + 1) :
    (calculateIndicators sqrt atrPeriod bollingerPeriod hist).atr = 0 ∧
    bollingerPeriod ≤ atrPeriod ∧ hist.length = atrPeriod := by
  have hap : atrPeriod ≤ hist.length := le_trans (le_max_left _ _) h1
  have hbp : bollingerPeriod ≤ hist.length := le_trans (le_max_right _ _) h1
  refine ⟨?_, by omega, by omega⟩
  simp only [calculateIndicators, if_neg (not_lt.2 h1), calculateATR,
    if_pos h2]

/-- Claim C8 witness: `atrPeriod = 3, bollingerPeriod = 2` and a three-sample
series satisfy both hypotheses, with zero ATR. -/
theorem calculateIndicators_gap_atr_zero_witness :
    max 3 2 ≤
      ([⟨1,1,1,1⟩, ⟨2,2,2,2⟩, ⟨3,3,3,3⟩] : List PriceData).length ∧
    ([⟨1,1,1,1⟩, ⟨2,2,2,2⟩, ⟨3,3,3,3⟩] : List PriceData).length < 3 + 1 ∧
    (calculateIndicators id 3 2
        [⟨1,1,1,1⟩, ⟨2,2,2,2⟩, ⟨3,3,3,3⟩]).atr = 0 :=
  ⟨by norm_num, by norm_num,
   (calculateIndicators_gap_atr_zero id 3 2 [⟨1,1,1,1⟩, ⟨2,2,2,2⟩, ⟨3,3,3,3⟩]
     (by norm_num) (by norm_num)).1⟩

/-- Claim C9: a zero fetched price leaves that stock's current price, update
time and price history exactly unchanged for the cycle, while a nonzero
price updates those three fields (ticker and indicators untouched); the
whole-cycle update applies this per ticker independently. -/
theorem updateAllPrices_frame (maxHistory now : ℕ) (priceOf : String → ℚ)
    (stocks : List StockData) (sd : StockData) (p : ℚ) :
    updateAllPrices maxHistory now priceOf stocks =
      stocks.map (fun s => updateStock maxHistory now (priceOf s.ticker) s) ∧
    (p = 0 → updateStock maxHistory now p sd = sd) ∧
    (p ≠ 0 →
      (updateStock maxHistory now p sd).ticker = sd.ticker ∧
      (updateStock maxHistory now p sd).indicators = sd.indicators ∧
      (updateStock maxHistory now p sd).currentPrice = p ∧
      (updateStock maxHistory now p sd).lastUpdate = now ∧
      (updateStock maxHistory now p sd).priceHistory =
        pushSample maxHistory sd.priceHistory (mkSample p)) :=
  ⟨rfl, fun h => by simp [updateStock, h], fun h => by simp [updateStock, h]⟩

/-- Claim C9 witness: at price 0 a concrete stock is unchanged; at price 7
its current price is overwritten. -/
theorem updateAllPrices_frame_witness :
    updateStock 2 5 0 ⟨"A", [], ⟨0,0,0,0,0⟩, 3, 1⟩ =
      ⟨"A", [], ⟨0,0,0,0,0⟩, 3, 1⟩ ∧
    (updateStock 2 5 7 ⟨"A", [], ⟨0,0,0,0,0⟩, 3, 1⟩).currentPrice = 7 :=
  ⟨(updateAllPrices_frame 2 5 (fun _ => 0) []
      ⟨"A", [], ⟨0,0,0,0,0⟩, 3, 1⟩ 0).2.1 rfl,
   ((updateAllPrices_frame 2 5 (fun _ => 0) []
      ⟨"A", [], ⟨0,0,0,0,0⟩, 3, 1⟩ 7).2.2 (by norm_num)).2.2.1⟩

/-- Claim C10: whenever an exit fires, the submitted sell quantity is the
whole held position quantity, truncated to an integer and negated —
independent of the per-cycle position size. -/
theorem evaluateExit_sells_entire_position (currentPrice : ℚ)
    (indicators : TradingIndicators) (position : Position) (reason : String)
    (q : ℤ)
    (h : evaluateExit currentPrice indicators position = some (reason, q)) :
    q = -(truncInt position.quantity) := by
  simp only [evaluateExit] at h
  split_ifs at h <;> simp_all

/-- Claim C10 witness: a take-profit exit on a 2.5-share position submits a
sell of 2 shares (the truncated, negated holding). -/
theorem evaluateExit_sells_entire_position_witness :
    (-2 : ℤ) = -(truncInt ((⟨"NVDA", 2.5, 237.5⟩ : Position)).quantity) :=
  evaluateExit_sells_entire_position 106 ⟨0, 105, 100, 95, 0⟩
    ⟨"NVDA", 2.5, 237.5⟩ "Take Profit (Upper Band)" (-2)
    (by norm_num [evaluateExit, truncInt])
